import Mathlib

/-!
Verification development for the rim-pay provider execution engine.

This file gives a shallow embedding, in Lean, of the parts of the Go
code base that the specification's claims are about:

* the canonical payment-status state machine and event log
  (`internal/types/payment.go`, `pkg/rimpay` TransactionStatus),
* the canonical error taxonomy (`types.PaymentError`),
* the retry executor (`internal/providers/common/retry.go`),
* the B-PAY adapter: passcode generation, token cache and result-code
  mapping (`internal/providers/bpay`),
* the MASRVI adapter: session cache, webhook notification handling and
  status polling (`internal/providers/masrvi`).

Go machine values are modelled as follows: `time.Duration` and time
instants as natural numbers of nanoseconds respectively seconds;
`float64` backoff arithmetic as exact rational arithmetic truncated to
integer nanoseconds (exact for every value appearing in the claims);
`error` results as `Option`s of an explicit error type; the sources of
nondeterminism (the crypto/rand reader, math/rand jitter, context
cancellation, HTTP issuer results) as explicit oracle parameters.
-/

namespace Rimpay

/-- PaymentStatus mirrors `types.PaymentStatus`: the five defined
status strings of the canonical state machine. -/
inductive PaymentStatus
  | pending
  | success
  | failed
  | cancelled
  | expired
deriving DecidableEq, Repr

/-- IsCompleted mirrors `PaymentStatus.IsCompleted` in
`internal/types/payment.go`: true exactly on the four terminal
statuses. -/
def PaymentStatus.IsCompleted (ps : PaymentStatus) : Bool :=
  ps = .success || ps = .failed || ps = .cancelled || ps = .expired

/-- ErrorCode mirrors `types.ErrorCode`, the closed set of canonical
error kinds. -/
inductive ErrorCode
  | invalidRequest
  | authenticationFailed
  | insufficientFunds
  | paymentDeclined
  | networkError
  | timeout
  | providerError
  | validationError
  | paymentExpired
deriving DecidableEq, Repr

/-- PaymentError mirrors `types.PaymentError` (fields used by the
retry executor and the adapters; the detail map and wrapped cause are
not needed by any claim). -/
structure PaymentError where
  Code : ErrorCode
  Message : String
  Provider : String
  Retryable : Bool
deriving DecidableEq, Repr

/-- GoError models a Go `error` value as received by the retry
executor: either a `*types.PaymentError` (the only type the executor
inspects, via type assertion), the context's own cancellation error, or
any other error value. -/
inductive GoError
  | payment (e : PaymentError)
  | ctxCanceled
  | other (msg : String)
deriving DecidableEq, Repr

/-- StatusEvent mirrors `rimpay.StatusEvent` (status, timestamp,
message; the metadata map is created empty by `AddEvent` and never
read by the claims). Timestamps are seconds. -/
structure StatusEvent where
  Status : PaymentStatus
  Timestamp : Nat
  Message : String
deriving DecidableEq, Repr

/-- TransactionStatus mirrors `rimpay.TransactionStatus` (fields used
by the adapters and the claims). -/
structure TransactionStatus where
  TransactionID : String
  Status : PaymentStatus
  Reference : String
  ProviderReference : String
  Message : String
  LastUpdated : Nat
  Events : List StatusEvent
deriving DecidableEq, Repr

/-- AddEvent mirrors `TransactionStatus.AddEvent`: it builds a
StatusEvent stamped with the current time, appends it to the event
list, sets the current status to the event's status and LastUpdated to
the event's timestamp.  The `time.Now()` call is the explicit `now`
parameter. -/
def AddEvent (ts : TransactionStatus) (status : PaymentStatus) (message : String)
    (now : Nat) : TransactionStatus :=
  { ts with
    Events := ts.Events ++ [{ Status := status, Timestamp := now, Message := message }]
    Status := status
    LastUpdated := now }

/-- PaymentRequest mirrors the fields of `rimpay.PaymentRequest` that
the B-PAY adapter reads.  The phone and money value objects are
external collaborators of the specified core, so the request carries
their provider renderings (`PhoneNumber.ForProvider(false)` and
`Amount.ToProviderAmount(false)`) as strings. -/
structure PaymentRequest where
  PhoneForProvider : String
  AmountForProvider : String
  Reference : String
  Passcode : String
  Language : String
deriving DecidableEq, Repr

/-- GetLanguage mirrors `PaymentRequest.GetLanguage`: an unset language
falls back to French. -/
def GetLanguage (r : PaymentRequest) : String :=
  if r.Language = "" then "FR" else r.Language

/-- PaymentResponse mirrors the fields of `rimpay.PaymentResponse`
that the retry executor and the claims thread through (the executor
treats the response as opaque). -/
structure PaymentResponse where
  TransactionID : String
  Status : PaymentStatus
  Reference : String
  Provider : String
deriving DecidableEq, Repr

end Rimpay

namespace Bpay

/-- convertLanguage mirrors `bpay.convertLanguage`: EN/FR/AR pass
through, anything else defaults to FR. -/
def convertLanguage (lang : String) : String :=
  if lang = "EN" then "EN"
  else if lang = "FR" then "FR"
  else if lang = "AR" then "AR"
  else "FR"

/-- convertErrorCodeToStatus mirrors `bpay.convertErrorCodeToStatus`:
the provider result-code table of the synchronous flow.  Note that the
code maps "1" (documented in the source as "Other error") to Failed in
addition to "2" and "4". -/
def convertErrorCodeToStatus (errorCode : String) : Rimpay.PaymentStatus :=
  if errorCode = "0" then .success
  else if errorCode = "2" then .failed
  else if errorCode = "4" then .failed
  else if errorCode = "1" then .failed
  else .pending

/-- generatePasscode mirrors `bpay.generatePasscode`: a uniform draw
`n` in `[0, 9000)` from crypto/rand shifted into `[1000, 9999]` and
rendered in decimal.  The random draw is the oracle parameter `rand`,
reduced modulo 9000 to land in the range crypto/rand guarantees. -/
def generatePasscode (rand : Nat) : String :=
  toString (rand % 9000 + 1000)

/-- AuthResponse mirrors `bpay.AuthResponse`.  `expires_in` is kept as
the raw string the provider returned, exactly as the Go code stores
it (the code never parses it). -/
structure AuthResponse where
  AccessToken : String
  ExpiresIn : String
  RefreshToken : String
deriving DecidableEq, Repr

/-- isTokenExpired mirrors `AuthManager.isTokenExpired`: despite its
name and doc comment, it returns `false` whenever a token is cached
(`am.auth != nil`) - it never consults `expires_in` or any clock. -/
def isTokenExpired (auth : Option AuthResponse) : Bool :=
  match auth with
  | none => true
  | some _ => false

/-- GetTokenResult distinguishes the two ways
`AuthManager.GetAccessToken` can produce a token: returning the cached
one under the read lock, or issuing a fresh one through
`authenticate` (the HTTP authentication call). -/
inductive GetTokenResult
  | cached (token : String)
  | freshIssued (token : String)
deriving DecidableEq, Repr

/-- GetAccessToken mirrors `AuthManager.GetAccessToken`: if a token is
cached and `isTokenExpired` is false it is returned as-is; otherwise
`authenticate` runs and yields the issuer's token (`issued` is the
access token the authentication HTTP call would return). -/
def GetAccessToken (auth : Option AuthResponse) (issued : String) : GetTokenResult :=
  match auth with
  | some a =>
      if isTokenExpired (some a) then .freshIssued issued else .cached a.AccessToken
  | none => .freshIssued issued

/-- PaymentRequest mirrors the B-PAY wire request `bpay.PaymentRequest`
(`client.go` models.go): exactly the JSON payload transmitted to the
provider by `ProcessPayment`. -/
structure PaymentRequest where
  ClientPhone : String
  Passcode : String
  OperationID : String
  Amount : String
  Language : String
deriving DecidableEq, Repr

/-- ProcessPaymentPayload mirrors the payload construction of the
passcode-generating `PaymentProcessor.ProcessPayment` variant: the
passcode field is always `generatePasscode` output and the
caller-supplied `request.Passcode` is never read. -/
def ProcessPaymentPayload (request : Rimpay.PaymentRequest) (rand : Nat) : PaymentRequest :=
  { ClientPhone := request.PhoneForProvider
    Passcode := generatePasscode rand
    OperationID := request.Reference
    Amount := request.AmountForProvider
    Language := convertLanguage (Rimpay.GetLanguage request) }

/-- ProcessPaymentPayloadDup mirrors the payload construction of the
duplicate `PaymentProcessor.ProcessPayment` variant present in the
repository, which copies the caller-supplied `request.Passcode` into
the wire request verbatim. -/
def ProcessPaymentPayloadDup (request : Rimpay.PaymentRequest) : PaymentRequest :=
  { ClientPhone := request.PhoneForProvider
    Passcode := request.Passcode
    OperationID := request.Reference
    Amount := request.AmountForProvider
    Language := convertLanguage (Rimpay.GetLanguage request) }

end Bpay

namespace Common

/-- RetryConfig mirrors `common.RetryConfig`.  Delays are nanosecond
counts (Go `time.Duration`); the float64 multiplier is modelled as an
exact rational. -/
structure RetryConfig where
  MaxAttempts : Nat
  InitialDelay : Nat
  MaxDelay : Nat
  Multiplier : Rat
  EnableJitter : Bool

/-- DefaultRetryConfig mirrors `common.DefaultRetryConfig`. -/
def DefaultRetryConfig : RetryConfig :=
  { MaxAttempts := 3
    InitialDelay := 1000000000
    MaxDelay := 30000000000
    Multiplier := 2
    EnableJitter := true }

/-- calcExp is the exponential-backoff product of
`RetryExecutor.calculateDelay` before the cap:
`time.Duration(float64(InitialDelay) * math.Pow(Multiplier, attempt-1))`.
The float-to-Duration conversion truncates, hence the floor. -/
def calcExp (cfg : RetryConfig) (attempt : Nat) : Nat :=
  (((cfg.InitialDelay : Rat) * cfg.Multiplier ^ (attempt - 1)).floor).toNat

/-- calculateDelay mirrors `RetryExecutor.calculateDelay`: exponential
growth, then the MaxDelay cap, then - only when jitter is enabled and
the delay is positive - `delay/2 + rand.Int63n(delay/2)`.  The
math/rand draw is the oracle `rand`, reduced modulo `delay/2` to land
in the half-open range `Int63n` guarantees. -/
def calculateDelay (cfg : RetryConfig) (rand : Nat → Nat) (attempt : Nat) : Nat :=
  let d0 := calcExp cfg attempt
  let d1 := if d0 > cfg.MaxDelay then cfg.MaxDelay else d0
  if cfg.EnableJitter ∧ 0 < d1 then d1 / 2 + rand attempt % (d1 / 2) else d1

/-- GoRet is the `(resp, err)` pair a `RetryablePaymentFunc` returns. -/
structure GoRet where
  resp : Option Rimpay.PaymentResponse
  err : Option Rimpay.GoError
deriving DecidableEq, Repr

/-- errStopsRetry is the executor's non-retryable test: the type
assertion `err.(*types.PaymentError)` followed by `!IsRetryable()`.
Errors that are not PaymentErrors fail the assertion and are retried. -/
def errStopsRetry : Rimpay.GoError → Bool
  | .payment pe => !pe.Retryable
  | .ctxCanceled => false
  | .other _ => false

/-- ExecOut is the observable outcome of one `ExecutePayment` run: the
returned pair plus the instrumentation the claims talk about - how
often the operation was invoked and which backoff sleeps happened. -/
structure ExecOut where
  resp : Option Rimpay.PaymentResponse
  err : Option Rimpay.GoError
  calls : Nat
  sleeps : List Nat
deriving DecidableEq, Repr

/-- execFrom is the loop body of `RetryExecutor.ExecutePayment`,
recursing on the number of remaining loop iterations
(`MaxAttempts - attempt + 1`).  `ctxDone chk` tells whether the
context's Done channel is closed at the chk-th select performed by the
executor (checked once at the top of each iteration and once while
sleeping); `fn k` is the operation's result at its k-th invocation. -/
def execFrom (cfg : RetryConfig) (ctxDone : Nat → Bool) (rand : Nat → Nat)
    (fn : Nat → GoRet) :
    Nat → Nat → Option Rimpay.PaymentResponse → Option Rimpay.GoError →
    Nat → List Nat → Nat → ExecOut
  | _, _, lastResp, lastErr, calls, sleeps, 0 =>
      { resp := lastResp, err := lastErr, calls := calls, sleeps := sleeps }
  | attempt, chk, _lastResp, _lastErr, calls, sleeps, remaining + 1 =>
      if ctxDone chk then
        { resp := none, err := some .ctxCanceled, calls := calls, sleeps := sleeps }
      else
        match (fn attempt).err with
        | none =>
            { resp := (fn attempt).resp, err := none, calls := calls + 1, sleeps := sleeps }
        | some e =>
            if errStopsRetry e then
              { resp := (fn attempt).resp, err := some e, calls := calls + 1, sleeps := sleeps }
            else if remaining = 0 then
              { resp := (fn attempt).resp, err := some e, calls := calls + 1, sleeps := sleeps }
            else if ctxDone (chk + 1) then
              { resp := none, err := some .ctxCanceled, calls := calls + 1, sleeps := sleeps }
            else
              execFrom cfg ctxDone rand fn (attempt + 1) (chk + 2) ((fn attempt).resp)
                (some e) (calls + 1) (sleeps ++ [calculateDelay cfg rand attempt]) remaining

/-- ExecutePayment mirrors `RetryExecutor.ExecutePayment`: the loop
runs from attempt 1 with `MaxAttempts` iterations allowed, starting
with nil last response and error. -/
def ExecutePayment (cfg : RetryConfig) (ctxDone : Nat → Bool) (rand : Nat → Nat)
    (fn : Nat → GoRet) : ExecOut :=
  execFrom cfg ctxDone rand fn 1 0 none none 0 [] cfg.MaxAttempts

/-- ctxNever is a context whose Done channel never fires. -/
def ctxNever : Nat → Bool := fun _ => false

end Common

namespace Masrvi

/-- NotificationData mirrors `masrvi.NotificationData`, the webhook
payload. -/
structure NotificationData where
  Status : String
  ClientID : String
  ClientName : String
  Mobile : String
  PurchaseRef : String
  PaymentRef : String
  PayID : String
  Timestamp : String
  IPAddress : String
  Error : String
deriving DecidableEq, Repr

/-- ToPaymentStatus mirrors `NotificationData.ToPaymentStatus`: the
switch matches the literal token "Ok" (not "OK") and "NOK"; everything
else is Pending. -/
def ToPaymentStatus (nd : NotificationData) : Rimpay.PaymentStatus :=
  if nd.Status = "Ok" then .success
  else if nd.Status = "NOK" then .failed
  else .pending

/-- HandleNotification mirrors `PaymentProcessor.HandleNotification`
for a non-nil notification: it maps the token, picks the message,
builds a fresh TransactionStatus (with an empty event list, Go's zero
value) stamped `nowBuild`, and then calls `AddEvent` stamped
`nowEvent` - the two separate `time.Now()` calls in the source. -/
def HandleNotification (nd : NotificationData) (nowBuild nowEvent : Nat) :
    Rimpay.TransactionStatus :=
  let status := ToPaymentStatus nd
  let message :=
    if status = .failed ∧ nd.Error ≠ "" then nd.Error else "Payment notification received"
  let ts : Rimpay.TransactionStatus :=
    { TransactionID := nd.PayID
      Status := status
      Reference := nd.PurchaseRef
      ProviderReference := nd.PaymentRef
      Message := message
      LastUpdated := nowBuild
      Events := [] }
  Rimpay.AddEvent ts status message nowEvent

/-- GetPaymentStatus mirrors the first `Provider.GetPaymentStatus`
variant in `masrvi/models.go`: a constant Pending status, nil error,
no HTTP call (its LastUpdated stays at the zero value). -/
def GetPaymentStatus (transactionID : String) : Rimpay.TransactionStatus :=
  { TransactionID := transactionID
    Status := .pending
    Reference := transactionID
    ProviderReference := ""
    Message := "Status check not supported, use webhook notifications"
    LastUpdated := 0
    Events := [] }

/-- GetPaymentStatusChecked mirrors the second
`Provider.GetPaymentStatus` variant: an empty transaction ID yields a
validation error (`none`); any other ID yields a Pending status
stamped with the current time, again with no HTTP call. -/
def GetPaymentStatusChecked (transactionID : String) (now : Nat) :
    Option Rimpay.TransactionStatus :=
  if transactionID = "" then none
  else
    some
      { TransactionID := transactionID
        Status := .pending
        Reference := transactionID
        ProviderReference := ""
        Message := "MASRVI payment status check"
        LastUpdated := now
        Events := [] }

/-- sessionCacheEntry mirrors `masrvi.sessionCacheEntry`: a session ID
with its absolute expiry instant (seconds). -/
structure SessionCacheEntry where
  sessionID : String
  expiresAt : Nat
deriving DecidableEq, Repr

/-- MPc is the program counter of one goroutine running
`SessionManager.GetSessionID` for a fixed merchant key.  The atomic
steps follow the lock structure of the source:

* `start`: the read-locked cache check at the top of `GetSessionID`;
* `issue`: the session HTTP call inside `createSession` - performed
  with no lock held;
* `store`: the brief write-locked insertion of the fresh session;
* `done`: the call has returned the carried session ID. -/
inductive MPc
  | start
  | issue
  | store (sid : String)
  | done (sid : String)
deriving DecidableEq, Repr

/-- MState is the shared state of two concurrent `GetSessionID`
calls for the same merchant key: the cached entry, the number of
issuer (session HTTP) invocations performed so far, and both program
counters. -/
structure MState where
  cache : Option SessionCacheEntry
  count : Nat
  pc0 : MPc
  pc1 : MPc
deriving DecidableEq, Repr

/-- mStep runs one atomic step of the chosen thread (`false` = thread
0, `true` = thread 1), following `GetSessionID`/`createSession`: the
read-locked cache check finishes immediately on a hit
(`time.Now().Before(expiresAt)`, i.e. `now < expiresAt`) and otherwise
moves to the unlocked issue step; issuing performs the session HTTP
call, yielding a fresh session ID (distinct per invocation) and
incrementing the invocation count; storing publishes the session under
the briefly-held write lock with a five-minute TTL.  A finished thread
does nothing. -/
def mStep (now : Nat) (s : MState) (which : Bool) : MState :=
  if which then
    match s.pc1 with
    | .start =>
        match s.cache with
        | some e =>
            if now < e.expiresAt then { s with pc1 := .done e.sessionID }
            else { s with pc1 := .issue }
        | none => { s with pc1 := .issue }
    | .issue => { s with pc1 := .store ("sess" ++ toString s.count), count := s.count + 1 }
    | .store sid =>
        { s with pc1 := .done sid, cache := some { sessionID := sid, expiresAt := now + 300 } }
    | .done _ => s
  else
    match s.pc0 with
    | .start =>
        match s.cache with
        | some e =>
            if now < e.expiresAt then { s with pc0 := .done e.sessionID }
            else { s with pc0 := .issue }
        | none => { s with pc0 := .issue }
    | .issue => { s with pc0 := .store ("sess" ++ toString s.count), count := s.count + 1 }
    | .store sid =>
        { s with pc0 := .done sid, cache := some { sessionID := sid, expiresAt := now + 300 } }
    | .done _ => s

/-- mRun runs a whole interleaving (a schedule of thread choices). -/
def mRun (now : Nat) (s : MState) : List Bool → MState
  | [] => s
  | which :: rest => mRun now (mStep now s which) rest

/-- mInit is the state of the claim's scenario: no valid cached
credential, no issuance yet, both callers about to run. -/
def mInit : MState :=
  { cache := none, count := 0, pc0 := .start, pc1 := .start }

/-- isDone tells whether a thread has returned. -/
def isDone : MPc → Bool
  | .done _ => true
  | _ => false

/-- issuedWeight counts a thread as having (certainly) passed the
issue step: threads at `store` issued just before; threads at `done`
may have issued or hit the cache. -/
def issuedWeight : MPc → Nat
  | .start => 0
  | .issue => 0
  | .store _ => 1
  | .done _ => 1

/-- cacheBit is 1 exactly when a session is cached. -/
def cacheBit : Option SessionCacheEntry → Nat
  | some _ => 1
  | none => 0

end Masrvi

section ClaimDemoInputs

/-- staleAuth is a cached B-PAY credential whose provider-reported
lifetime is 300 seconds. -/
def staleAuth : Bpay.AuthResponse :=
  { AccessToken := "stale-token", ExpiresIn := "300", RefreshToken := "rt-1" }

/-- terminalTx is a transaction that has already reached the terminal
status Success at time 10. -/
def terminalTx : Rimpay.TransactionStatus :=
  { TransactionID := "tx-9"
    Status := .success
    Reference := "ref-9"
    ProviderReference := ""
    Message := ""
    LastUpdated := 10
    Events := [{ Status := .success, Timestamp := 10, Message := "settled" }] }

/-- reqPassA is a canonical B-PAY payment request whose caller supplied
the passcode "1111". -/
def reqPassA : Rimpay.PaymentRequest :=
  { PhoneForProvider := "22212345"
    AmountForProvider := "150"
    Reference := "op-77"
    Passcode := "1111"
    Language := "FR" }

/-- reqPassB agrees with reqPassA on every field except the
caller-supplied passcode. -/
def reqPassB : Rimpay.PaymentRequest :=
  { reqPassA with Passcode := "2222" }

/-- netErr is a retryable canonical network error, as raised by the
adapters on transport failure. -/
def netErr : Rimpay.PaymentError :=
  { Code := .networkError, Message := "network error", Provider := "test", Retryable := true }

/-- declinedErr is a non-retryable canonical error. -/
def declinedErr : Rimpay.PaymentError :=
  { Code := .paymentDeclined, Message := "declined", Provider := "test", Retryable := false }

/-- alwaysNetFail is an operation that fails with the retryable
network error on every invocation. -/
def alwaysNetFail : Nat → Common.GoRet :=
  fun _ => { resp := none, err := some (.payment netErr) }

/-- scenarioCfg is the backoff scenario of the claim: InitialDelay 1s,
Multiplier 2.0, MaxDelay 30s, jitter disabled, with enough attempts to
reach the cap twice. -/
def scenarioCfg : Common.RetryConfig :=
  { MaxAttempts := 8
    InitialDelay := 1000000000
    MaxDelay := 30000000000
    Multiplier := 2
    EnableJitter := false }

/-- zeroRand is a fixed oracle for the (unused, jitter-disabled)
math/rand draw. -/
def zeroRand : Nat → Nat := fun _ => 0

/-- C2Inv is the issuance-counting invariant of the two-thread session
model: the number of issuer invocations never exceeds the number of
threads at or past the store step (so each caller issues at most
once), while each thread at or past the store or done step, and a
non-empty cache, witness at least one issuance. -/
def C2Inv (s : Masrvi.MState) : Prop :=
  s.count ≤ Masrvi.issuedWeight s.pc0 + Masrvi.issuedWeight s.pc1 ∧
  Masrvi.issuedWeight s.pc0 ≤ s.count ∧
  Masrvi.issuedWeight s.pc1 ≤ s.count ∧
  Masrvi.cacheBit s.cache ≤ s.count

end ClaimDemoInputs

/-- C1: the claim says the credential cache never hands out an expired
credential.  The B-PAY half of the cache violates this: at the failing
input - a cached token whose 300-second lifetime elapsed long ago
(issued at 0, `expires_in` "300", current time 1000000 seconds) -
`AuthManager.GetAccessToken` still returns the cached token, because
`isTokenExpired` answers `false` for every cached token without ever
consulting `expires_in` or the clock, contradicting its own name and
doc comment.  The returned credential is the cached one, not a fresh
issuance, and its expiry instant 0 + 300 is far below the current
time. -/
theorem c1_bpay_hands_out_expired_token :
    Bpay.isTokenExpired (some staleAuth) = false ∧
    Bpay.GetAccessToken (some staleAuth) "fresh-token" =
      Bpay.GetTokenResult.cached "stale-token" ∧
    staleAuth.ExpiresIn = "300" ∧ 0 + 300 < 1000000 := by
  refine ⟨rfl, rfl, rfl, by norm_num⟩

/-- C3 counterexample: the claim says a terminal status never
regresses under `AddEvent`.  At the concrete input `terminalTx`
(already Success, hence terminal per `IsCompleted`), applying
`AddEvent` with a Pending webhook update changes the current status to
Pending: the status regresses. -/
theorem c3_counterexample_terminal_status_regresses :
    Rimpay.PaymentStatus.IsCompleted terminalTx.Status = true ∧
    (Rimpay.AddEvent terminalTx .pending "late webhook" 20).Status = .pending ∧
    (Rimpay.AddEvent terminalTx .pending "late webhook" 20).Status ≠ terminalTx.Status := by
  decide

/-- C3 amended: `TransactionStatus.AddEvent` always appends exactly one
StatusEvent and unconditionally overwrites the current status (and
LastUpdated) with the new event's values - also when the previous
status was terminal, so a terminal status can regress. -/
theorem c3_amended_addEvent_always_overwrites (ts : Rimpay.TransactionStatus)
    (s : Rimpay.PaymentStatus) (m : String) (now : Nat) :
    (Rimpay.AddEvent ts s m now).Events =
      ts.Events ++ [{ Status := s, Timestamp := now, Message := m }] ∧
    (Rimpay.AddEvent ts s m now).Status = s ∧
    (Rimpay.AddEvent ts s m now).LastUpdated = now :=
  ⟨rfl, rfl, rfl⟩

/-- C7: the claim says the caller-supplied Passcode is always ignored
and never transmitted.  The passcode-generating `ProcessPayment`
variant indeed produces identical provider payloads for two requests
differing only in the Passcode field; but the duplicate
`ProcessPayment` variant in the repository copies the caller's
passcode into the wire request, so at the failing input (Passcode
"1111" vs "2222") its payloads differ and transmit the caller's value,
contradicting the library's own documented policy. -/
theorem c7_dup_variant_transmits_caller_passcode :
    (∀ r : Nat, Bpay.ProcessPaymentPayload reqPassA r = Bpay.ProcessPaymentPayload reqPassB r) ∧
    (∀ r : Nat, (Bpay.ProcessPaymentPayload reqPassA r).Passcode = Bpay.generatePasscode r) ∧
    reqPassB = { reqPassA with Passcode := "2222" } ∧
    (Bpay.ProcessPaymentPayloadDup reqPassA).Passcode = "1111" ∧
    Bpay.ProcessPaymentPayloadDup reqPassA ≠ Bpay.ProcessPaymentPayloadDup reqPassB := by
  refine ⟨fun r => rfl, fun r => rfl, rfl, rfl, by decide⟩

/-- C8 counterexample: the claim says any result code other than "0",
"2", "4" maps to Pending, but the concrete unlisted code "1" maps to
Failed in `convertErrorCodeToStatus` (and the repository's own test
table asserts exactly that). -/
theorem c8_counterexample_code_one_maps_to_failed :
    Bpay.convertErrorCodeToStatus "1" = .failed ∧
    ("1" : String) ≠ "0" ∧ ("1" : String) ≠ "2" ∧ ("1" : String) ≠ "4" ∧
    Rimpay.PaymentStatus.failed ≠ Rimpay.PaymentStatus.pending := by
  decide

/-- C8 amended: the synchronous-flow result-code table maps "0" to
Success, each of "2", "4" and also "1" to Failed, and every code
outside this four-entry table to Pending. -/
theorem c8_amended_result_code_table (c : String) :
    (c = "0" → Bpay.convertErrorCodeToStatus c = .success) ∧
    ((c = "2" ∨ c = "4" ∨ c = "1") → Bpay.convertErrorCodeToStatus c = .failed) ∧
    (c ≠ "0" → c ≠ "1" → c ≠ "2" → c ≠ "4" →
      Bpay.convertErrorCodeToStatus c = .pending) := by
  refine ⟨fun h => ?_, fun h => ?_, fun h0 h1 h2 h4 => ?_⟩
  · subst h; decide
  · rcases h with h | h | h <;> (subst h; decide)
  · unfold Bpay.convertErrorCodeToStatus
    rw [if_neg h0, if_neg h2, if_neg h4, if_neg h1]

/-- C8 amended witness: the unlisted code "7" evaluates to Pending via
the amended theorem. -/
theorem c8_amended_witness :
    ("7" : String) ≠ "0" ∧ Bpay.convertErrorCodeToStatus "7" = .pending :=
  ⟨by decide,
    (c8_amended_result_code_table "7").2.2 (by decide) (by decide) (by decide) (by decide)⟩

/-- C9: for every non-nil MASRVI webhook notification,
`HandleNotification` maps token "Ok" to Success, "NOK" to Failed and
anything else to Pending, appends exactly one StatusEvent, and the
appended event's status equals the returned current status. -/
theorem c9_handleNotification_mapping_and_single_event
    (nd : Masrvi.NotificationData) (nowBuild nowEvent : Nat) :
    (Masrvi.HandleNotification nd nowBuild nowEvent).Status =
      (if nd.Status = "Ok" then .success
       else if nd.Status = "NOK" then .failed
       else .pending) ∧
    (Masrvi.HandleNotification nd nowBuild nowEvent).Events.length = 1 ∧
    (Masrvi.HandleNotification nd nowBuild nowEvent).Events.map (fun e => e.Status) =
      [(Masrvi.HandleNotification nd nowBuild nowEvent).Status] :=
  ⟨rfl, rfl, rfl⟩

/-- C10: for every non-empty transaction ID, both MASRVI
`GetPaymentStatus` variants answer without error and without any
provider call, and the returned status is always Pending - polling can
never observe Success or Failed. -/
theorem c10_masrvi_polling_always_pending (transactionID : String) (now : Nat)
    (h : transactionID ≠ "") :
    (Masrvi.GetPaymentStatus transactionID).Status = .pending ∧
    (Masrvi.GetPaymentStatusChecked transactionID now).map (fun ts => ts.Status) =
      some .pending := by
  refine ⟨rfl, ?_⟩
  unfold Masrvi.GetPaymentStatusChecked
  rw [if_neg h]
  rfl

/-- C10 witness: the theorem evaluated at the concrete transaction ID
"tx-1" and time 5. -/
theorem c10_witness :
    ("tx-1" : String) ≠ "" ∧
    (Masrvi.GetPaymentStatus "tx-1").Status = .pending ∧
    (Masrvi.GetPaymentStatusChecked "tx-1" 5).map (fun ts => ts.Status) =
      some .pending := by
  refine ⟨by decide, ?_, ?_⟩
  · exact (c10_masrvi_polling_always_pending "tx-1" 5 (by decide)).1
  · exact (c10_masrvi_polling_always_pending "tx-1" 5 (by decide)).2

/-- Helper: the retry loop performs at most `remaining` further
operation invocations on top of the `calls` already counted, for every
context, jitter oracle and operation. -/
theorem execFrom_calls_le (cfg : Common.RetryConfig) (ctx : Nat → Bool) (rand : Nat → Nat)
    (fn : Nat → Common.GoRet) :
    ∀ remaining attempt chk lastResp lastErr calls sleeps,
      (Common.execFrom cfg ctx rand fn attempt chk lastResp lastErr calls sleeps
          remaining).calls ≤ calls + remaining := by
  intro remaining
  induction remaining with
  | zero =>
      intro attempt chk lastResp lastErr calls sleeps
      simp [Common.execFrom]
  | succ k ih =>
      intro attempt chk lastResp lastErr calls sleeps
      unfold Common.execFrom
      split
      · dsimp only; omega
      · split
        · dsimp only; omega
        · split
          · dsimp only; omega
          · split
            · dsimp only; omega
            · split
              · dsimp only; omega
              · exact le_trans (ih _ _ _ _ _ _) (by omega)

/-- Helper: with an uncancelled context and an operation that fails
with a retryable PaymentError on every invocation, the retry loop uses
every remaining attempt and returns the last invocation's
response/error pair. -/
theorem execFrom_allfail (cfg : Common.RetryConfig) (rand : Nat → Nat)
    (fn : Nat → Common.GoRet)
    (hfail : ∀ k, ∃ pe, (fn k).err = some (Rimpay.GoError.payment pe) ∧ pe.Retryable = true) :
    ∀ remaining attempt chk lastResp lastErr calls sleeps, 1 ≤ remaining →
      (Common.execFrom cfg Common.ctxNever rand fn attempt chk lastResp lastErr calls sleeps
          remaining).calls = calls + remaining ∧
      (Common.execFrom cfg Common.ctxNever rand fn attempt chk lastResp lastErr calls sleeps
          remaining).resp = (fn (attempt + remaining - 1)).resp ∧
      (Common.execFrom cfg Common.ctxNever rand fn attempt chk lastResp lastErr calls sleeps
          remaining).err = (fn (attempt + remaining - 1)).err ∧
      (Common.execFrom cfg Common.ctxNever rand fn attempt chk lastResp lastErr calls sleeps
          remaining).sleeps = sleeps ++
        ((List.range (remaining - 1)).map fun i => Common.calculateDelay cfg rand (attempt + i)) := by
  intro remaining
  induction remaining with
  | zero => intro _ _ _ _ _ _ h; exact absurd h (by omega)
  | succ k ih =>
      intro attempt chk lastResp lastErr calls sleeps _
      obtain ⟨pe, he, hr⟩ := hfail attempt
      unfold Common.execFrom
      simp only [Common.ctxNever, Bool.false_eq_true, if_false, he, Common.errStopsRetry,
        hr, Bool.not_true]
      by_cases hk : k = 0
      · subst hk
        simp [he, Nat.add_sub_cancel]
      · rw [if_neg hk]
        obtain ⟨i1, i2, i3, i4⟩ := ih (attempt + 1) (chk + 2) ((fn attempt).resp)
          (some (.payment pe)) (calls + 1)
          (sleeps ++ [Common.calculateDelay cfg rand attempt]) (by omega)
        have hidx : attempt + 1 + k - 1 = attempt + (k + 1) - 1 := by omega
        rw [hidx] at i2 i3
        refine ⟨by omega, i2, i3, ?_⟩
        rw [i4]
        obtain ⟨j, hj⟩ : ∃ j, k = j + 1 := ⟨k - 1, by omega⟩
        subst hj
        rw [show j + 1 + 1 - 1 = j + 1 from rfl, List.range_succ_eq_map,
          List.map_cons, List.map_map, List.append_assoc]
        refine congrArg (sleeps ++ ·) ?_
        rw [show j + 1 - 1 = j from rfl, List.singleton_append]
        refine congrArg₂ List.cons (by rw [Nat.add_zero]) (List.map_congr_left ?_)
        intro a _
        show Common.calculateDelay cfg rand (attempt + 1 + a) =
          Common.calculateDelay cfg rand (attempt + Nat.succ a)
        refine congrArg (Common.calculateDelay cfg rand) (by omega)

/-- C4: with an uncancelled context and an operation that fails with a
retryable canonical error on every invocation, `ExecutePayment`
invokes the operation exactly `MaxAttempts` times and returns the last
response/error pair observed; and for every context and operation
whatsoever it never invokes the operation more than `MaxAttempts`
times. -/
theorem c4_retry_exactly_max_attempts (cfg : Common.RetryConfig) (rand : Nat → Nat)
    (fn : Nat → Common.GoRet) (hn : 1 ≤ cfg.MaxAttempts)
    (hfail : ∀ k, ∃ pe, (fn k).err = some (Rimpay.GoError.payment pe) ∧ pe.Retryable = true) :
    (Common.ExecutePayment cfg Common.ctxNever rand fn).calls = cfg.MaxAttempts ∧
    (Common.ExecutePayment cfg Common.ctxNever rand fn).resp = (fn cfg.MaxAttempts).resp ∧
    (Common.ExecutePayment cfg Common.ctxNever rand fn).err = (fn cfg.MaxAttempts).err ∧
    ∀ (ctx : Nat → Bool) (rand2 : Nat → Nat) (fn2 : Nat → Common.GoRet),
      (Common.ExecutePayment cfg ctx rand2 fn2).calls ≤ cfg.MaxAttempts := by
  obtain ⟨h1, h2, h3, _⟩ :=
    execFrom_allfail cfg rand fn hfail cfg.MaxAttempts 1 0 none none 0 [] hn
  refine ⟨by simpa [Common.ExecutePayment] using h1,
    by simpa [Common.ExecutePayment, Nat.add_sub_cancel_left] using h2,
    by simpa [Common.ExecutePayment, Nat.add_sub_cancel_left] using h3,
    fun ctx rand2 fn2 => ?_⟩
  simpa [Common.ExecutePayment] using
    execFrom_calls_le cfg ctx rand2 fn2 cfg.MaxAttempts 1 0 none none 0 []

/-- C4 witness: the default configuration (MaxAttempts 3) with the
always-failing retryable operation makes exactly three invocations. -/
theorem c4_witness :
    (Common.ExecutePayment Common.DefaultRetryConfig Common.ctxNever zeroRand
        alwaysNetFail).calls = Common.DefaultRetryConfig.MaxAttempts ∧
    Common.DefaultRetryConfig.MaxAttempts = 3 :=
  ⟨(c4_retry_exactly_max_attempts Common.DefaultRetryConfig zeroRand alwaysNetFail
      (by decide) (fun _ => ⟨netErr, rfl, rfl⟩)).1, rfl⟩

/-- C5: an operation whose first invocation fails with a non-retryable
canonical error is invoked exactly once regardless of MaxAttempts, its
response/error pair is returned immediately, and no backoff sleep
occurs. -/
theorem c5_nonretryable_fails_immediately (cfg : Common.RetryConfig) (rand : Nat → Nat)
    (fn : Nat → Common.GoRet) (r : Option Rimpay.PaymentResponse) (pe : Rimpay.PaymentError)
    (hn : 1 ≤ cfg.MaxAttempts)
    (hf : fn 1 = { resp := r, err := some (Rimpay.GoError.payment pe) })
    (hnr : pe.Retryable = false) :
    Common.ExecutePayment cfg Common.ctxNever rand fn =
      { resp := r, err := some (Rimpay.GoError.payment pe), calls := 1, sleeps := [] } := by
  obtain ⟨m, hm⟩ : ∃ m, cfg.MaxAttempts = m + 1 := ⟨cfg.MaxAttempts - 1, by omega⟩
  unfold Common.ExecutePayment
  rw [hm]
  unfold Common.execFrom
  simp [Common.ctxNever, hf, Common.errStopsRetry, hnr]

/-- C5 witness: the non-retryable declined error stops the default
executor after one call with no sleeps. -/
theorem c5_witness :
    Common.ExecutePayment Common.DefaultRetryConfig Common.ctxNever zeroRand
        (fun _ => { resp := none, err := some (.payment declinedErr) }) =
      { resp := none, err := some (.payment declinedErr), calls := 1, sleeps := [] } :=
  c5_nonretryable_fails_immediately Common.DefaultRetryConfig zeroRand _ none declinedErr
    (by decide) rfl rfl

/-- C6: with jitter disabled, the delay computed for attempt `k` is
exactly `min(InitialDelay * Multiplier^(k-1), MaxDelay)` (float-to-
Duration truncation included); and in the claim's scenario
(InitialDelay 1s, Multiplier 2.0, MaxDelay 30s, jitter disabled, 8
attempts of a retryably-failing operation) the realized inter-attempt
sleeps are 1s, 2s, 4s, 8s, 16s, 30s (capped), 30s. -/
theorem c6_backoff_schedule (cfg : Common.RetryConfig) (rand : Nat → Nat) (k : Nat)
    (hj : cfg.EnableJitter = false) (hk : 1 ≤ k) :
    Common.calculateDelay cfg rand k = min (Common.calcExp cfg k) cfg.MaxDelay ∧
    (Common.ExecutePayment scenarioCfg Common.ctxNever zeroRand alwaysNetFail).sleeps =
      [1000000000, 2000000000, 4000000000, 8000000000, 16000000000,
        30000000000, 30000000000] := by
  constructor
  · simp only [Common.calculateDelay, hj, Bool.false_eq_true, false_and, if_false]
    split <;> omega
  · obtain ⟨_, _, _, hs⟩ :=
      execFrom_allfail scenarioCfg zeroRand alwaysNetFail
        (fun _ => ⟨netErr, rfl, rfl⟩) 8 1 0 none none 0 [] (by omega)
    have d1 : Common.calculateDelay scenarioCfg zeroRand 1 = 1000000000 := by
      norm_num [Common.calculateDelay, Common.calcExp, scenarioCfg, Rat.floor_def'] <;> decide
    have d2 : Common.calculateDelay scenarioCfg zeroRand 2 = 2000000000 := by
      norm_num [Common.calculateDelay, Common.calcExp, scenarioCfg, Rat.floor_def'] <;> decide
    have d3 : Common.calculateDelay scenarioCfg zeroRand 3 = 4000000000 := by
      norm_num [Common.calculateDelay, Common.calcExp, scenarioCfg, Rat.floor_def'] <;> decide
    have d4 : Common.calculateDelay scenarioCfg zeroRand 4 = 8000000000 := by
      norm_num [Common.calculateDelay, Common.calcExp, scenarioCfg, Rat.floor_def'] <;> decide
    have d5 : Common.calculateDelay scenarioCfg zeroRand 5 = 16000000000 := by
      norm_num [Common.calculateDelay, Common.calcExp, scenarioCfg, Rat.floor_def'] <;> decide
    have d6 : Common.calculateDelay scenarioCfg zeroRand 6 = 30000000000 := by
      norm_num [Common.calculateDelay, Common.calcExp, scenarioCfg, Rat.floor_def'] <;> decide
    have d7 : Common.calculateDelay scenarioCfg zeroRand 7 = 30000000000 := by
      norm_num [Common.calculateDelay, Common.calcExp, scenarioCfg, Rat.floor_def'] <;> decide
    show (Common.execFrom scenarioCfg Common.ctxNever zeroRand alwaysNetFail 1 0 none none
        0 [] 8).sleeps = _
    rw [hs]
    have hrange : List.range (8 - 1) = [0, 1, 2, 3, 4, 5, 6] := rfl
    rw [hrange]
    simp only [List.map_cons, List.map_nil, List.nil_append]
    norm_num [d1, d2, d3, d4, d5, d6, d7]

/-- C6 witness: attempt 6 of the scenario evaluates to the 30-second
cap via the theorem's formula. -/
theorem c6_witness :
    scenarioCfg.EnableJitter = false ∧ 1 ≤ 6 ∧
    Common.calculateDelay scenarioCfg zeroRand 6 =
      min (Common.calcExp scenarioCfg 6) scenarioCfg.MaxDelay ∧
    Common.calculateDelay scenarioCfg zeroRand 6 = 30000000000 :=
  ⟨rfl, by omega, (c6_backoff_schedule scenarioCfg zeroRand 6 rfl (by omega)).1,
    by norm_num [Common.calculateDelay, Common.calcExp, scenarioCfg, Rat.floor_def'] <;> decide⟩

/-- Helper: every atomic step of the two-thread session model
preserves the issuance-counting invariant. -/
theorem mStep_preserves_inv (now : Nat) (s : Masrvi.MState) (b : Bool)
    (h : C2Inv s) : C2Inv (Masrvi.mStep now s b) := by
  rcases s with ⟨cache, count, pc0, pc1⟩
  obtain ⟨h1, h2, h3, h4⟩ := h
  unfold C2Inv Masrvi.mStep at *
  cases b
  case false =>
    cases pc0
    case start =>
      cases cache
      case none =>
        simp_all [Masrvi.issuedWeight, Masrvi.cacheBit]
      case some e =>
        simp only [Bool.false_eq_true, if_false, eq_self_iff_true, if_true,
          Masrvi.issuedWeight, Masrvi.cacheBit] at h1 h2 h3 h4 ⊢
        rcases Nat.lt_or_ge now e.expiresAt with hlt | hge
        · rw [if_pos hlt]
          simp only [Masrvi.issuedWeight, Masrvi.cacheBit]
          omega
        · rw [if_neg (Nat.not_lt.mpr hge)]
          simp only [Masrvi.issuedWeight, Masrvi.cacheBit]
          omega
    case issue =>
      simp_all [Masrvi.issuedWeight, Masrvi.cacheBit] <;> omega
    case store sid =>
      simp_all [Masrvi.issuedWeight, Masrvi.cacheBit] <;> omega
    case done sid =>
      simp_all [Masrvi.issuedWeight, Masrvi.cacheBit]
  case true =>
    cases pc1
    case start =>
      cases cache
      case none =>
        simp_all [Masrvi.issuedWeight, Masrvi.cacheBit]
      case some e =>
        simp only [Bool.false_eq_true, if_false, eq_self_iff_true, if_true,
          Masrvi.issuedWeight, Masrvi.cacheBit] at h1 h2 h3 h4 ⊢
        rcases Nat.lt_or_ge now e.expiresAt with hlt | hge
        · rw [if_pos hlt]
          simp only [Masrvi.issuedWeight, Masrvi.cacheBit]
          omega
        · rw [if_neg (Nat.not_lt.mpr hge)]
          simp only [Masrvi.issuedWeight, Masrvi.cacheBit]
          omega
    case issue =>
      simp_all [Masrvi.issuedWeight, Masrvi.cacheBit] <;> omega
    case store sid =>
      simp_all [Masrvi.issuedWeight, Masrvi.cacheBit] <;> omega
    case done sid =>
      simp_all [Masrvi.issuedWeight, Masrvi.cacheBit]

/-- Helper: the invariant holds after running any schedule. -/
theorem mRun_preserves_inv (now : Nat) :
    ∀ (sched : List Bool) (s : Masrvi.MState), C2Inv s → C2Inv (Masrvi.mRun now s sched)
  | [], _, h => h
  | b :: rest, s, h =>
      mRun_preserves_inv now rest (Masrvi.mStep now s b) (mStep_preserves_inv now s b h)

/-- C2 counterexample: the legal interleaving in which both callers
pass the read-locked cache check before either stores (possible
because `createSession` performs the session HTTP call with no lock
held and never re-checks the cache) drives the issuer twice, not
exactly once, even though both calls started with no valid cached
credential and both complete. -/
theorem c2_counterexample_double_issuance :
    (Masrvi.mRun 1000 Masrvi.mInit [false, true, false, true, false, true]).count = 2 ∧
    Masrvi.isDone
      (Masrvi.mRun 1000 Masrvi.mInit [false, true, false, true, false, true]).pc0 = true ∧
    Masrvi.isDone
      (Masrvi.mRun 1000 Masrvi.mInit [false, true, false, true, false, true]).pc1 = true ∧
    (2 : Nat) ≠ 1 := by
  decide

/-- C2 amended: concurrent `GetSessionID` calls that start with no
valid cached credential may each invoke the issuer once - across every
interleaving of the two-thread model the issuer is invoked at most
once per caller (hence at most twice), and at least once as soon as
any caller has completed. -/
theorem c2_amended_issuance_bounds (now : Nat) (sched : List Bool) :
    (Masrvi.mRun now Masrvi.mInit sched).count ≤ 2 ∧
    (Masrvi.isDone (Masrvi.mRun now Masrvi.mInit sched).pc0 = true →
      1 ≤ (Masrvi.mRun now Masrvi.mInit sched).count) ∧
    (Masrvi.isDone (Masrvi.mRun now Masrvi.mInit sched).pc1 = true →
      1 ≤ (Masrvi.mRun now Masrvi.mInit sched).count) := by
  have hbase : C2Inv Masrvi.mInit := by
    simp [C2Inv, Masrvi.mInit, Masrvi.issuedWeight, Masrvi.cacheBit]
  obtain ⟨g1, g2, g3, g4⟩ := mRun_preserves_inv now sched Masrvi.mInit hbase
  have w0 : ∀ pc : Masrvi.MPc, Masrvi.issuedWeight pc ≤ 1 := fun pc => by
    cases pc <;> simp [Masrvi.issuedWeight]
  have wdone : ∀ pc : Masrvi.MPc, Masrvi.isDone pc = true → Masrvi.issuedWeight pc = 1 :=
    fun pc h => by cases pc <;> simp_all [Masrvi.isDone, Masrvi.issuedWeight]
  refine ⟨?_, fun hd => by rw [wdone _ hd] at g2; exact g2,
    fun hd => by rw [wdone _ hd] at g3; exact g3⟩
  have hw0 := w0 (Masrvi.mRun now Masrvi.mInit sched).pc0
  have hw1 := w0 (Masrvi.mRun now Masrvi.mInit sched).pc1
  omega

/-- C2 amended witness: the sequential schedule in which caller 0 runs
to completion alone exhibits a completed caller with exactly one
issuance, within the proven bounds. -/
theorem c2_amended_witness :
    Masrvi.isDone (Masrvi.mRun 7 Masrvi.mInit [false, false, false]).pc0 = true ∧
    1 ≤ (Masrvi.mRun 7 Masrvi.mInit [false, false, false]).count ∧
    (Masrvi.mRun 7 Masrvi.mInit [false, false, false]).count ≤ 2 :=
  ⟨by decide,
    (c2_amended_issuance_bounds 7 [false, false, false]).2.1 (by decide),
    (c2_amended_issuance_bounds 7 [false, false, false]).1⟩
